import Mathlib

/-!
Shallow embedding of `chemprop/models/model.py`: the `MoleculeModel`
architecture-assembly layer (a message-passing encoder followed by a
configurable feed-forward head) and the `build_model` entry point.

Scalar values carried by tensors are modelled by `Int`; every numeric
operation whose definition lives outside this file (the encoder `MPN`,
`nn.Dropout`, the activation returned by `get_activation_function`,
`nn.Sigmoid`, `nn.Softmax`, and the weights of each `nn.Linear`) is an
abstract function supplied by an evaluation environment `Env`, so the
theorems below are about which stages the assembly applies and in which
order, for any semantics of those collaborators.  The weight content of
the k-th linear layer is `env.lin k`; running two models under one `Env`
is the "identical weights" situation of the spec.
-/

namespace Chemprop

/-- Scalar type carried by the (abstracted) tensors. -/
abbrev Val := Int

/-- One module of the feed-forward stack built by `create_ffn`
(`nn.Dropout`, the activation module, `nn.Linear(inDim, outDim)`). -/
inductive Stage where
  | dropout : Stage
  | activation : Stage
  | linear (inDim outDim : Nat) : Stage
deriving DecidableEq, Repr

/-- The configuration record (`args : Namespace`), restricted to the fields
`model.py` reads or writes.  `output_size` is included because `build_model`
assigns it on the configuration itself. -/
structure Args where
  num_tasks : Nat
  dataset_type : String
  multiclass_num_classes : Nat
  featurizer : Bool
  features_only : Bool
  features_size : Nat
  hidden_size : Nat
  use_input_features : Bool
  features_dim : Nat
  dropout : ℚ
  activation : String
  ffn_num_layers : Nat
  ffn_hidden_size : Nat
  output_size : Nat
deriving DecidableEq, Repr

/-- The model: the three mode flags stored by `__init__`, the
`num_classes` field set by `create_ffn` in multiclass mode (0 before),
and the feed-forward stack `self.ffn` as a stage list. -/
structure MoleculeModel where
  featurizer : Bool
  classification : Bool
  multiclass : Bool
  num_classes : Nat := 0
  ffn : List Stage := []
deriving DecidableEq, Repr

/-- `MoleculeModel.__init__`: `assert not (classification and multiclass)`
aborts construction (spec name: ConfigurationConflict); otherwise the flags
are stored and the model is returned. -/
def MoleculeModel.init (featurizer classification multiclass : Bool) :
    Except String MoleculeModel :=
  if classification && multiclass then
    Except.error "ConfigurationConflict"
  else
    Except.ok { featurizer := featurizer, classification := classification,
                multiclass := multiclass }

/-- Lines 53-58 of `create_ffn`: the input width of the first linear layer
(`first_linear_dim`). -/
def headInputDim (args : Args) : Nat :=
  if args.features_only then args.features_size
  else args.hidden_size + (if args.use_input_features then args.features_dim else 0)

/-- `MoleculeModel.create_ffn`: builds `self.ffn`.  The Python loop
`for _ in range(ffn_num_layers - 2): ffn.extend([...])` becomes the join of
a replicated block; the trailing `if not self.featurizer: ffn.extend([...])`
becomes a conditionally appended block. -/
def MoleculeModel.create_ffn (m : MoleculeModel) (args : Args) : MoleculeModel :=
  let num_classes := if m.multiclass then args.multiclass_num_classes else m.num_classes
  let first_linear_dim := headInputDim args
  let ffn : List Stage :=
    if args.ffn_num_layers = 1 then
      [Stage.dropout, Stage.linear first_linear_dim args.output_size]
    else
      [Stage.dropout, Stage.linear first_linear_dim args.ffn_hidden_size] ++
      (List.replicate (args.ffn_num_layers - 2)
        [Stage.activation, Stage.dropout,
         Stage.linear args.ffn_hidden_size args.ffn_hidden_size]).flatten ++
      (if !m.featurizer then
        [Stage.activation, Stage.dropout,
         Stage.linear args.ffn_hidden_size args.output_size]
       else [])
  { m with num_classes := num_classes, ffn := ffn }

/-- `build_model`: computes `output_size` on the configuration (mutating
`args`), constructs the model from the dataset-type flags, and attaches the
feed-forward head.  The encoder construction (`MPN`) and the weight pass are
external collaborators, abstracted into `Env` below.  The returned pair is
(model, configuration after the mutation). -/
def build_model (args : Args) : Except String (MoleculeModel × Args) :=
  let args1 : Args := { args with output_size := args.num_tasks }
  let args2 : Args :=
    if args1.dataset_type == "multiclass" then
      { args1 with output_size := args1.output_size * args1.multiclass_num_classes }
    else args1
  match MoleculeModel.init args2.featurizer (args2.dataset_type == "classification")
      (args2.dataset_type == "multiclass") with
  | Except.error e => Except.error e
  | Except.ok model => Except.ok (model.create_ffn args2, args2)

/-- Evaluation environment: the semantics of every external numeric
collaborator.  `training` is the module's train/eval flag; `lin k i o` is
the k-th linear layer of the stack (counted in creation order) with its
weights, so two models evaluated under the same `Env` have identical
weights at corresponding layers. -/
structure Env where
  training : Bool
  drop : List Val → List Val
  act : Val → Val
  lin : Nat → Nat → Nat → List Val → List Val
  sigmoid : Val → Val
  softmax : List Val → List Val
  encoder : List Val → List Val

/-- Shape-respecting environments: dropout and softmax preserve width and a
linear layer with output dimension `o` produces a width-`o` vector. -/
structure Env.WF (env : Env) : Prop where
  drop_len : ∀ v, (env.drop v).length = v.length
  lin_len : ∀ k i o v, (env.lin k i o v).length = o
  softmax_len : ∀ v, (env.softmax v).length = v.length

/-- Running a stage list (`nn.Sequential`) on a per-example vector; `k`
counts the linear layers already consumed so each linear gets its own
weights from the environment. -/
def runStages (env : Env) : Nat → List Stage → List Val → List Val
  | _, [], v => v
  | k, Stage.dropout :: ms, v => runStages env k ms (env.drop v)
  | k, Stage.activation :: ms, v => runStages env k ms (v.map env.act)
  | k, Stage.linear i o :: ms, v => runStages env (k + 1) ms (env.lin k i o v)

/-- Number of linear layers in a stage list. -/
def linCount : List Stage → Nat
  | [] => 0
  | Stage.linear _ _ :: ms => linCount ms + 1
  | _ :: ms => linCount ms

/-- Output width of a stage list as a function of its input width (dropout
and activation preserve width, a linear forces its output dimension). -/
def ffnOutDim : List Stage → Nat → Nat
  | [], n => n
  | Stage.linear _ o :: ms, _ => ffnOutDim ms o
  | Stage.dropout :: ms, n => ffnOutDim ms n
  | Stage.activation :: ms, n => ffnOutDim ms n

/-- A per-example output tensor: 1-D for regression/classification or a
featurizer, 2-D (`tasks × classes`) for multiclass. -/
inductive Tensor where
  | vec (v : List Val) : Tensor
  | mat (rows : List (List Val)) : Tensor
deriving DecidableEq, Repr

/-- `output.reshape((batch, -1, num_classes))`, per example: split a flat
row into consecutive chunks of width `c`. -/
def chunksOf (c : Nat) (l : List Val) : List (List Val) :=
  if h : c = 0 ∨ l = [] then []
  else l.take c :: chunksOf c (l.drop c)
termination_by l.length
decreasing_by
  simp only [not_or] at h
  have h1 : 0 < l.length := List.length_pos.mpr h.2
  have h2 : 0 < c := Nat.pos_of_ne_zero h.1
  simpa using Nat.sub_lt h1 h2

/-- `MoleculeModel.forward` on one example: encoder, then the stack, then
the mode-gated post-processing of lines 112-124. -/
def MoleculeModel.forward (m : MoleculeModel) (env : Env) (x : List Val) : Tensor :=
  let output := runStages env 0 m.ffn (env.encoder x)
  if m.featurizer then
    Tensor.vec output
  else
    let output :=
      if m.classification && !env.training then output.map env.sigmoid else output
    if m.multiclass then
      let reshaped := chunksOf m.num_classes output
      if !env.training then Tensor.mat (reshaped.map env.softmax)
      else Tensor.mat reshaped
    else
      Tensor.vec output

/-- `MoleculeModel.featurize` on one example: encoder, then the stack with
its last module removed (`self.ffn[:-1]`). -/
def MoleculeModel.featurize (m : MoleculeModel) (env : Env) (x : List Val) : List Val :=
  runStages env 0 m.ffn.dropLast (env.encoder x)

/-- Input width of the first linear layer of a stage list, i.e. the width
the head consumes. -/
def firstLinearIn : List Stage → Option Nat
  | [] => none
  | Stage.linear i _ :: _ => some i
  | Stage.dropout :: ms => firstLinearIn ms
  | Stage.activation :: ms => firstLinearIn ms

/-! ### Concrete configurations, environments and models for the witnesses -/

/-- A regression configuration (depth 1) whose stored `output_size` (5)
differs from `num_tasks` (3). -/
def argsA : Args :=
  { num_tasks := 3, dataset_type := "regression", multiclass_num_classes := 0,
    featurizer := false, features_only := false, features_size := 0,
    hidden_size := 7, use_input_features := false, features_dim := 0,
    dropout := 0, activation := "ReLU", ffn_num_layers := 1,
    ffn_hidden_size := 5, output_size := 5 }

/-- A multiclass configuration with 2 tasks, 5 classes, depth 3. -/
def argsMC : Args :=
  { num_tasks := 2, dataset_type := "multiclass", multiclass_num_classes := 5,
    featurizer := false, features_only := false, features_size := 0,
    hidden_size := 7, use_input_features := false, features_dim := 0,
    dropout := 0, activation := "ReLU", ffn_num_layers := 3,
    ffn_hidden_size := 4, output_size := 99 }

/-- Depth-1 configuration with head input width 7, hidden width 5 and
output width 3, all distinct. -/
def argsD1 : Args := { argsA with output_size := 3 }

/-- Depth-2 variant of `argsD1`. -/
def argsD2 : Args := { argsA with ffn_num_layers := 2, output_size := 3 }

/-- Featurizer configuration at depth 3 (hidden width 5, output width 3). -/
def argsF3 : Args := { argsA with featurizer := true, ffn_num_layers := 3, output_size := 3 }

/-- A concrete shape-respecting environment in inference mode: dropout and
the encoder are the identity (dropout is inactive in eval mode), the
activation squares, the k-th linear layer sends a vector to `o` copies of
its sum plus `k + 1`, the sigmoid adds 100 and the softmax adds 1000 to
each entry (the transcendental maps are abstract, only their application
points matter). -/
def envC : Env :=
  { training := false
    drop := fun v => v
    act := fun a => a * a
    lin := fun k _ o v => List.replicate o (v.foldr (fun a b => a + b) 0 + Int.ofNat k + 1)
    sigmoid := fun a => a + 100
    softmax := fun v => v.map (fun a => a + 1000)
    encoder := fun v => v }

/-- The same concrete environment in training mode. -/
def envT : Env := { envC with training := true }

/-- The depth-1 regression model `build_model` produces from `argsD1`. -/
def mN : MoleculeModel :=
  ⟨false, false, false, 0, [Stage.dropout, Stage.linear 7 3]⟩

/-- The featurizer twin of `mN` (same configuration, featurizer flag set). -/
def mF : MoleculeModel :=
  ⟨true, false, false, 0, [Stage.dropout, Stage.linear 7 3]⟩

/-- A multiclass model with 3 tasks and 2 classes (head output width 6). -/
def mM : MoleculeModel :=
  ⟨false, false, true, 2, [Stage.dropout, Stage.linear 7 6]⟩

/-- A width-7 input vector. -/
def xM : List Val := [1, 2, 3, 4, 5, 6, 7]

/-! ### Helper lemmas about running stage lists -/

/-- Running an appended stage list runs the two parts in sequence, the
second part starting at the linear-layer index reached by the first. -/
theorem runStages_append (env : Env) (xs ys : List Stage) :
    ∀ (k : Nat) (v : List Val),
      runStages env k (xs ++ ys) v =
        runStages env (k + linCount xs) ys (runStages env k xs v) := by
  induction xs with
  | nil => intro k v; simp [runStages, linCount]
  | cons s ms ih =>
      intro k v
      cases s with
      | dropout => simpa [runStages, linCount] using ih k (env.drop v)
      | activation => simpa [runStages, linCount] using ih k (v.map env.act)
      | linear i o =>
          have := ih (k + 1) (env.lin k i o v)
          simpa [runStages, linCount, Nat.add_comm, Nat.add_assoc,
                 Nat.add_left_comm] using this

/-- In a shape-respecting environment the width of the result of a stage
list is `ffnOutDim` of the input width. -/
theorem runStages_length (env : Env) (hwf : Env.WF env) :
    ∀ (ms : List Stage) (k : Nat) (v : List Val),
      (runStages env k ms v).length = ffnOutDim ms v.length := by
  intro ms
  induction ms with
  | nil => intro k v; rfl
  | cons s ms ih =>
      intro k v
      cases s with
      | dropout =>
          simp only [runStages, ffnOutDim]
          rw [ih, hwf.drop_len]
      | activation =>
          simp only [runStages, ffnOutDim]
          rw [ih, List.length_map]
      | linear i o =>
          simp only [runStages, ffnOutDim]
          rw [ih, hwf.lin_len]

/-- `ffnOutDim` of an appended list composes. -/
theorem ffnOutDim_append (xs ys : List Stage) :
    ∀ n : Nat, ffnOutDim (xs ++ ys) n = ffnOutDim ys (ffnOutDim xs n) := by
  induction xs with
  | nil => intro n; rfl
  | cons s ms ih => intro n; cases s <;> simp [ffnOutDim, ih]

/-- The repeated middle block of the head preserves the hidden width. -/
theorem ffnOutDim_middle (k h : Nat) :
    ffnOutDim ((List.replicate k
      [Stage.activation, Stage.dropout, Stage.linear h h]).flatten) h = h := by
  induction k with
  | zero => rfl
  | succ k ih =>
      rw [List.replicate_succ, List.flatten_cons, ffnOutDim_append]
      simpa [ffnOutDim] using ih

/-- Chunking a row whose length is `t * c` (with `c > 0`) yields `t`
chunks. -/
theorem chunksOf_length (c : Nat) (hc : 0 < c) :
    ∀ (t : Nat) (l : List Val), l.length = t * c → (chunksOf c l).length = t := by
  intro t
  induction t with
  | zero =>
      intro l hl
      have : l = [] := List.length_eq_zero.mp (by simpa using hl)
      rw [chunksOf]
      simp [this]
  | succ t ih =>
      intro l hl
      have hne : l ≠ [] := by
        intro h0
        rw [h0] at hl
        simp at hl
        omega
      rw [chunksOf]
      have hcond : ¬(c = 0 ∨ l = []) := by
        push_neg
        exact ⟨Nat.pos_iff_ne_zero.mp hc, hne⟩
      rw [dif_neg hcond]
      have hdrop : (l.drop c).length = t * c := by
        rw [List.length_drop, hl]
        have : t * c + c = (t + 1) * c := by ring
        omega
      simp [ih (l.drop c) hdrop]

/-- Chunking a row whose length is `t * c` (with `c > 0`) yields chunks of
width `c`. -/
theorem chunksOf_mem_length (c : Nat) (hc : 0 < c) :
    ∀ (t : Nat) (l : List Val), l.length = t * c →
      ∀ r ∈ chunksOf c l, r.length = c := by
  intro t
  induction t with
  | zero =>
      intro l hl r hr
      have : l = [] := List.length_eq_zero.mp (by simpa using hl)
      rw [chunksOf] at hr
      simp [this] at hr
  | succ t ih =>
      intro l hl r hr
      have hne : l ≠ [] := by
        intro h0
        rw [h0] at hl
        simp at hl
        omega
      rw [chunksOf, dif_neg (by push_neg; exact ⟨Nat.pos_iff_ne_zero.mp hc, hne⟩)] at hr
      have hdrop : (l.drop c).length = t * c := by
        rw [List.length_drop, hl]
        have : t * c + c = (t + 1) * c := by ring
        omega
      rcases List.mem_cons.mp hr with h1 | h2
      · rw [h1, List.length_take, hl]
        have : c ≤ (t + 1) * c := Nat.le_mul_of_pos_left c (Nat.succ_pos t)
        omega
      · exact ih (l.drop c) hdrop r h2

/-- Normal form of `build_model`: it always succeeds, returning the model
with flags derived from the dataset type and the configuration with its
`output_size` field overwritten. -/
theorem build_model_eq (args : Args) :
    build_model args =
      Except.ok
        ((MoleculeModel.mk args.featurizer (args.dataset_type == "classification")
            (args.dataset_type == "multiclass") 0 []).create_ffn
              (if args.dataset_type == "multiclass" then
                { args with output_size := args.num_tasks * args.multiclass_num_classes }
               else { args with output_size := args.num_tasks }),
          if args.dataset_type == "multiclass" then
            { args with output_size := args.num_tasks * args.multiclass_num_classes }
          else { args with output_size := args.num_tasks }) := by
  rw [build_model]
  by_cases hm : (args.dataset_type == "multiclass") = true
  · have hd : args.dataset_type = "multiclass" := eq_of_beq hm
    have hc : (args.dataset_type == "classification") = false := by simp [hd]
    simp [MoleculeModel.init, hm, hc, hd]
  · have hm' : (args.dataset_type == "multiclass") = false := by simpa using hm
    simp [MoleculeModel.init, hm']

/-! ### Claims -/

/-- Claim C1: for every flag combination, `MoleculeModel.__init__` fails
with ConfigurationConflict exactly when both the classification and
multiclass flags are true; with at most one set it completes and returns
the assembled model (the flags stored on it), never raising. -/
theorem C1_init_conflict_iff (f c mc : Bool) :
    ((c && mc) = true →
      MoleculeModel.init f c mc = Except.error "ConfigurationConflict") ∧
    ((c && mc) = false →
      MoleculeModel.init f c mc =
        Except.ok { featurizer := f, classification := c, multiclass := mc }) := by
  constructor <;> intro h <;> simp [MoleculeModel.init, h]

/-- Witness for C1 at concrete flags: both set fails, one set succeeds. -/
theorem C1_witness :
    MoleculeModel.init true true true = Except.error "ConfigurationConflict" ∧
    MoleculeModel.init false true false =
      Except.ok { featurizer := false, classification := true, multiclass := false } :=
  ⟨(C1_init_conflict_iff true true true).1 rfl,
   (C1_init_conflict_iff false true false).2 rfl⟩

/-- Claim C3: `create_ffn` builds exactly the stated stage list: at depth 1
a single dropout-then-linear stage from the head input width to the output
width; at depth greater than 1 an initial dropout-then-linear stage to the
hidden width, `depth - 2` repeated (activation, dropout, hidden-to-hidden
linear) blocks, and a final (activation, dropout, hidden-to-output linear)
block unless the model is in featurizer mode. -/
theorem C3_create_ffn_stages (m : MoleculeModel) (args : Args) :
    (args.ffn_num_layers = 1 →
      (m.create_ffn args).ffn =
        [Stage.dropout, Stage.linear (headInputDim args) args.output_size]) ∧
    (1 < args.ffn_num_layers →
      (m.create_ffn args).ffn =
        [Stage.dropout, Stage.linear (headInputDim args) args.ffn_hidden_size] ++
        (List.replicate (args.ffn_num_layers - 2)
          [Stage.activation, Stage.dropout,
           Stage.linear args.ffn_hidden_size args.ffn_hidden_size]).flatten ++
        (if m.featurizer then []
         else [Stage.activation, Stage.dropout,
               Stage.linear args.ffn_hidden_size args.output_size])) := by
  constructor
  · intro h
    simp [MoleculeModel.create_ffn, h]
  · intro h
    have hne : ¬(args.ffn_num_layers = 1) := by omega
    cases hf : m.featurizer <;>
      simp [MoleculeModel.create_ffn, hne, hf]

/-- Witness for C3 at a depth-1 and a depth-3 configuration. -/
theorem C3_witness :
    ((⟨false, false, false, 0, []⟩ : MoleculeModel).create_ffn argsA).ffn =
      [Stage.dropout, Stage.linear (headInputDim argsA) argsA.output_size] ∧
    ((⟨false, false, false, 0, []⟩ : MoleculeModel).create_ffn argsMC).ffn =
      [Stage.dropout, Stage.linear (headInputDim argsMC) argsMC.ffn_hidden_size] ++
      (List.replicate (argsMC.ffn_num_layers - 2)
        [Stage.activation, Stage.dropout,
         Stage.linear argsMC.ffn_hidden_size argsMC.ffn_hidden_size]).flatten ++
      (if (⟨false, false, false, 0, []⟩ : MoleculeModel).featurizer then []
       else [Stage.activation, Stage.dropout,
             Stage.linear argsMC.ffn_hidden_size argsMC.output_size]) :=
  ⟨(C3_create_ffn_stages ⟨false, false, false, 0, []⟩ argsA).1 rfl,
   (C3_create_ffn_stages ⟨false, false, false, 0, []⟩ argsMC).2 (by decide)⟩

/-- Claim C6: construction computes the head's output width as `num_tasks`
for regression or classification dataset types, and as
`num_tasks * multiclass_num_classes` for the multiclass dataset type. -/
theorem C6_output_size (args : Args) (m : MoleculeModel) (a2 : Args)
    (h : build_model args = Except.ok (m, a2)) :
    ((args.dataset_type == "regression" || args.dataset_type == "classification") = true →
      a2.output_size = args.num_tasks) ∧
    ((args.dataset_type == "multiclass") = true →
      a2.output_size = args.num_tasks * args.multiclass_num_classes) := by
  rw [build_model_eq] at h
  injection h with h1
  injection h1 with hm1 ha2
  subst ha2
  constructor
  · intro hrc
    have hm : (args.dataset_type == "multiclass") = false := by
      have h2 := hrc
      simp only [Bool.or_eq_true] at h2
      rcases h2 with h1 | h1 <;> simp [eq_of_beq h1]
    simp [hm]
  · intro hm
    simp [hm]

/-- Witness for C6 at a regression and a multiclass configuration. -/
theorem C6_witness :
    (({ argsA with output_size := 3 } : Args).output_size = argsA.num_tasks) ∧
    (({ argsMC with output_size := 10 } : Args).output_size =
      argsMC.num_tasks * argsMC.multiclass_num_classes) :=
  ⟨(C6_output_size argsA
      ⟨false, false, false, 0, [Stage.dropout, Stage.linear 7 3]⟩
      { argsA with output_size := 3 } (by rfl)).1 rfl,
   (C6_output_size argsMC
      ⟨false, false, true, 5,
        [Stage.dropout, Stage.linear 7 4,
         Stage.activation, Stage.dropout, Stage.linear 4 4,
         Stage.activation, Stage.dropout, Stage.linear 4 10]⟩
      { argsMC with output_size := 10 } (by rfl)).2 rfl⟩

/-- Claim C7: the head's input width (the first linear layer's input
dimension) is the auxiliary features size alone when the features-only flag
is set, and otherwise the encoder hidden width, plus the auxiliary feature
vector width when use of input features is enabled. -/
theorem C7_head_input_width (m : MoleculeModel) (args : Args) :
    firstLinearIn ((m.create_ffn args).ffn) =
      some (if args.features_only then args.features_size
            else args.hidden_size +
              (if args.use_input_features then args.features_dim else 0)) := by
  by_cases h1 : args.ffn_num_layers = 1 <;>
    simp [MoleculeModel.create_ffn, h1, firstLinearIn, headInputDim]

/-- Claim C9 (amended): `build_model` mutates exactly the `output_size`
field of the configuration, leaving every other field unchanged. -/
theorem C9_frame (args : Args) (m : MoleculeModel) (a2 : Args)
    (h : build_model args = Except.ok (m, a2)) :
    a2 = { args with output_size :=
      if args.dataset_type == "multiclass" then
        args.num_tasks * args.multiclass_num_classes
      else args.num_tasks } := by
  rw [build_model_eq] at h
  injection h with h1
  injection h1 with hm1 ha2
  subst ha2
  by_cases hm : (args.dataset_type == "multiclass") = true <;> simp [hm]

/-- Counterexample to C9 as stated: on `argsA` (stored `output_size` 5,
`num_tasks` 3) `build_model` returns a configuration whose `output_size`
has changed to 3, so the configuration is not read-only. -/
theorem C9_counterexample :
    argsA.output_size = 5 ∧
    (build_model argsA).toOption.map (fun p => p.2.output_size) = some 3 := by
  constructor <;> rfl

/-- Witness for C9 (amended) at the concrete configuration `argsA`. -/
theorem C9_witness :
    ({ argsA with output_size := 3 } : Args) =
      { argsA with output_size :=
        if argsA.dataset_type == "multiclass" then
          argsA.num_tasks * argsA.multiclass_num_classes
        else argsA.num_tasks } :=
  C9_frame argsA ⟨false, false, false, 0, [Stage.dropout, Stage.linear 7 3]⟩
    { argsA with output_size := 3 } (by rfl)

/-- The concrete inference environment is shape-respecting. -/
theorem envC_wf : Env.WF envC :=
  ⟨fun _ => rfl, fun k i o v => by simp [envC], fun v => by simp [envC]⟩

/-- The concrete training environment is shape-respecting. -/
theorem envT_wf : Env.WF envT :=
  ⟨envC_wf.drop_len, envC_wf.lin_len, envC_wf.softmax_len⟩

/-- Counterexample to C2 as stated: depth-1 head, identical weights (one
environment), same input.  `featurize` on the model built with
featurizer=false applies only dropout to the encoder output (width 7,
values unchanged), while forward on the otherwise-identical model built
with featurizer=true still applies the projection (width 3).  The two
results differ. -/
theorem C2_counterexample :
    (build_model argsD1).toOption.map (fun p => p.1) = some mN ∧
    (build_model { argsD1 with featurizer := true }).toOption.map (fun p => p.1) = some mF ∧
    Tensor.vec (mN.featurize envC xM) ≠ mF.forward envC xM := by
  refine ⟨rfl, rfl, ?_⟩
  decide

/-- Claim C2 (amended): `featurize` removes only the last single module of
the head.  At depth greater than 1, featurize on the featurizer=false model
equals the forward output of the otherwise-identical featurizer=true model
(same configuration and weights) with the removed stage's activation and
dropout still applied on top — not that output itself.  At depth 1 even the
widths differ (see the counterexample). -/
theorem C2_featurize_vs_featurizer (c mc : Bool) (nc : Nat)
    (l1 l2 : List Stage) (args : Args) (env : Env) (x : List Val)
    (hd : 1 < args.ffn_num_layers) :
    ∃ w : List Val,
      (MoleculeModel.create_ffn ⟨true, c, mc, nc, l2⟩ args).forward env x =
        Tensor.vec w ∧
      (MoleculeModel.create_ffn ⟨false, c, mc, nc, l1⟩ args).featurize env x =
        env.drop (w.map env.act) := by
  have hne : ¬(args.ffn_num_layers = 1) := by omega
  have hft : (MoleculeModel.create_ffn ⟨true, c, mc, nc, l2⟩ args).ffn =
      [Stage.dropout, Stage.linear (headInputDim args) args.ffn_hidden_size] ++
      (List.replicate (args.ffn_num_layers - 2)
        [Stage.activation, Stage.dropout,
         Stage.linear args.ffn_hidden_size args.ffn_hidden_size]).flatten := by
    simp [MoleculeModel.create_ffn, hne]
  have hff : (MoleculeModel.create_ffn ⟨false, c, mc, nc, l1⟩ args).ffn =
      ([Stage.dropout, Stage.linear (headInputDim args) args.ffn_hidden_size] ++
       (List.replicate (args.ffn_num_layers - 2)
         [Stage.activation, Stage.dropout,
          Stage.linear args.ffn_hidden_size args.ffn_hidden_size]).flatten ++
       [Stage.activation, Stage.dropout]) ++
      [Stage.linear args.ffn_hidden_size args.output_size] := by
    simp [MoleculeModel.create_ffn, hne]
  refine ⟨runStages env 0
      ([Stage.dropout, Stage.linear (headInputDim args) args.ffn_hidden_size] ++
       (List.replicate (args.ffn_num_layers - 2)
         [Stage.activation, Stage.dropout,
          Stage.linear args.ffn_hidden_size args.ffn_hidden_size]).flatten)
      (env.encoder x), ?_, ?_⟩
  · have hfeat : (MoleculeModel.create_ffn ⟨true, c, mc, nc, l2⟩ args).featurizer = true := rfl
    simp [MoleculeModel.forward, hfeat, hft]
  · rw [MoleculeModel.featurize, hff, List.dropLast_concat, runStages_append]
    rfl

/-- Witness for C2 (amended) at depth 2 under the concrete environment. -/
theorem C2_witness :
    ∃ w : List Val,
      (MoleculeModel.create_ffn ⟨true, false, false, 0, []⟩ argsD2).forward envC xM =
        Tensor.vec w ∧
      (MoleculeModel.create_ffn ⟨false, false, false, 0, []⟩ argsD2).featurize envC xM =
        envC.drop (w.map envC.act) :=
  C2_featurize_vs_featurizer false false 0 [] [] argsD2 envC xM (by decide)

/-- Claim C4: for a classification-mode non-featurizer model, forward
applies the elementwise sigmoid to the head output exactly in inference
mode, and returns the raw head output (logits) unchanged in training
mode. -/
theorem C4_classification_sigmoid (m : MoleculeModel) (env : Env) (x : List Val)
    (hc : m.classification = true) (hmc : m.multiclass = false)
    (hf : m.featurizer = false) :
    (env.training = true →
      m.forward env x = Tensor.vec (runStages env 0 m.ffn (env.encoder x))) ∧
    (env.training = false →
      m.forward env x =
        Tensor.vec ((runStages env 0 m.ffn (env.encoder x)).map env.sigmoid)) := by
  constructor <;> intro ht <;> simp [MoleculeModel.forward, hc, hmc, hf, ht]

/-- Witness for C4: a concrete classification model under the training and
the inference environment. -/
theorem C4_witness :
    (⟨false, true, false, 0, [Stage.dropout, Stage.linear 7 3]⟩ :
        MoleculeModel).forward envT xM =
      Tensor.vec (runStages envT 0 [Stage.dropout, Stage.linear 7 3]
        (envT.encoder xM)) ∧
    (⟨false, true, false, 0, [Stage.dropout, Stage.linear 7 3]⟩ :
        MoleculeModel).forward envC xM =
      Tensor.vec ((runStages envC 0 [Stage.dropout, Stage.linear 7 3]
        (envC.encoder xM)).map envC.sigmoid) :=
  ⟨(C4_classification_sigmoid ⟨false, true, false, 0,
      [Stage.dropout, Stage.linear 7 3]⟩ envT xM rfl rfl rfl).1 rfl,
   (C4_classification_sigmoid ⟨false, true, false, 0,
      [Stage.dropout, Stage.linear 7 3]⟩ envC xM rfl rfl rfl).2 rfl⟩

/-- Claim C5: for a multiclass-mode non-featurizer model with `T` tasks and
`num_classes` classes (flat head output width `T * num_classes`), forward
reshapes the flat output into `T` rows of `num_classes` entries in both run
modes, applies the per-row softmax exactly in inference mode, and returns
the raw reshaped logits in training mode. -/
theorem C5_multiclass_reshape_softmax (m : MoleculeModel) (env : Env)
    (x : List Val) (T : Nat) (hmc : m.multiclass = true)
    (hc : m.classification = false) (hf : m.featurizer = false)
    (hwf : Env.WF env) (hC : 0 < m.num_classes)
    (hlen : ffnOutDim m.ffn (env.encoder x).length = T * m.num_classes) :
    (chunksOf m.num_classes (runStages env 0 m.ffn (env.encoder x))).length = T ∧
    (∀ r ∈ chunksOf m.num_classes (runStages env 0 m.ffn (env.encoder x)),
      r.length = m.num_classes) ∧
    (env.training = true →
      m.forward env x =
        Tensor.mat (chunksOf m.num_classes (runStages env 0 m.ffn (env.encoder x)))) ∧
    (env.training = false →
      m.forward env x =
        Tensor.mat ((chunksOf m.num_classes
          (runStages env 0 m.ffn (env.encoder x))).map env.softmax) ∧
      ((chunksOf m.num_classes (runStages env 0 m.ffn (env.encoder x))).map
          env.softmax).length = T ∧
      (∀ r ∈ (chunksOf m.num_classes (runStages env 0 m.ffn (env.encoder x))).map
          env.softmax, r.length = m.num_classes)) := by
  have hout : (runStages env 0 m.ffn (env.encoder x)).length = T * m.num_classes := by
    rw [runStages_length env hwf, hlen]
  refine ⟨chunksOf_length m.num_classes hC T _ hout,
    chunksOf_mem_length m.num_classes hC T _ hout, ?_, ?_⟩
  · intro ht
    simp [MoleculeModel.forward, hmc, hc, hf, ht]
  · intro ht
    refine ⟨by simp [MoleculeModel.forward, hmc, hc, hf, ht], ?_, ?_⟩
    · rw [List.length_map]
      exact chunksOf_length m.num_classes hC T _ hout
    · intro r hr
      rcases List.mem_map.mp hr with ⟨s, hs, rfl⟩
      rw [hwf.softmax_len]
      exact chunksOf_mem_length m.num_classes hC T _ hout s hs

/-- Witness for C5: the concrete multiclass model (3 tasks, 2 classes)
under the training and the inference environment. -/
theorem C5_witness :
    ((chunksOf mM.num_classes (runStages envT 0 mM.ffn (envT.encoder xM))).length = 3 ∧
     mM.forward envT xM =
       Tensor.mat (chunksOf mM.num_classes (runStages envT 0 mM.ffn (envT.encoder xM)))) ∧
    (mM.forward envC xM =
       Tensor.mat ((chunksOf mM.num_classes
         (runStages envC 0 mM.ffn (envC.encoder xM))).map envC.softmax) ∧
     (∀ r ∈ (chunksOf mM.num_classes (runStages envC 0 mM.ffn (envC.encoder xM))).map
         envC.softmax, r.length = mM.num_classes)) :=
  ⟨⟨(C5_multiclass_reshape_softmax mM envT xM 3 rfl rfl rfl envT_wf
      (by decide) (by decide)).1,
    (C5_multiclass_reshape_softmax mM envT xM 3 rfl rfl rfl envT_wf
      (by decide) (by decide)).2.2.1 rfl⟩,
   ⟨((C5_multiclass_reshape_softmax mM envC xM 3 rfl rfl rfl envC_wf
      (by decide) (by decide)).2.2.2 rfl).1,
    ((C5_multiclass_reshape_softmax mM envC xM 3 rfl rfl rfl envC_wf
      (by decide) (by decide)).2.2.2 rfl).2.2⟩⟩

/-- Counterexample to C8 as stated: built in featurizer mode at depth 1,
the head keeps its projection stage `linear 7 3` to the configured output
width 3, and forward applies it: the output has width 3 (the configured
output width), not the head input width 7, so the projection stage is
applied. -/
theorem C8_counterexample :
    (build_model { argsA with featurizer := true }).toOption.map (fun p => p.1.ffn) =
      some [Stage.dropout, Stage.linear 7 3] ∧
    (⟨true, false, false, 0, [Stage.dropout, Stage.linear 7 3]⟩ :
        MoleculeModel).forward envC [0, 0, 0, 0, 0, 0, 0] =
      Tensor.vec [1, 1, 1] := by
  constructor <;> rfl

/-- Claim C8 (amended): a featurizer-mode model's forward applies no
post-processing (it returns the raw stack output) at every depth, and at
depth greater than 1 the head omits the final projection stage, so the
output width equals the hidden width regardless of the configured output
width.  At depth 1 the single projection stage to the configured output
width is kept (see the counterexample). -/
theorem C8_featurizer_amended (m : MoleculeModel) (args : Args) (env : Env)
    (x : List Val) (hm : m.featurizer = true) (hwf : Env.WF env)
    (hd : 1 < args.ffn_num_layers) :
    (m.create_ffn args).forward env x =
      Tensor.vec (runStages env 0 (m.create_ffn args).ffn (env.encoder x)) ∧
    (runStages env 0 (m.create_ffn args).ffn (env.encoder x)).length =
      args.ffn_hidden_size := by
  have hne : ¬(args.ffn_num_layers = 1) := by omega
  have hffn : (m.create_ffn args).ffn =
      [Stage.dropout, Stage.linear (headInputDim args) args.ffn_hidden_size] ++
      (List.replicate (args.ffn_num_layers - 2)
        [Stage.activation, Stage.dropout,
         Stage.linear args.ffn_hidden_size args.ffn_hidden_size]).flatten := by
    simp [MoleculeModel.create_ffn, hne, hm]
  have hfeat : (m.create_ffn args).featurizer = true := by
    simpa [MoleculeModel.create_ffn] using hm
  constructor
  · simp [MoleculeModel.forward, hfeat]
  · rw [runStages_length env hwf, hffn, ffnOutDim_append]
    have h1 : ffnOutDim
        [Stage.dropout, Stage.linear (headInputDim args) args.ffn_hidden_size]
        (env.encoder x).length = args.ffn_hidden_size := rfl
    rw [h1, ffnOutDim_middle]

/-- Witness for C8 (amended): concrete featurizer model at depth 3 under
the concrete environment; the output width is the hidden width 5, not the
configured output width 3. -/
theorem C8_witness :
    ((⟨true, false, false, 0, []⟩ : MoleculeModel).create_ffn argsF3).forward envC xM =
      Tensor.vec (runStages envC 0
        ((⟨true, false, false, 0, []⟩ : MoleculeModel).create_ffn argsF3).ffn
        (envC.encoder xM)) ∧
    (runStages envC 0
        ((⟨true, false, false, 0, []⟩ : MoleculeModel).create_ffn argsF3).ffn
        (envC.encoder xM)).length = argsF3.ffn_hidden_size :=
  C8_featurizer_amended ⟨true, false, false, 0, []⟩ argsF3 envC xM rfl envC_wf
    (by decide)

/-- Claim C10: at depth 1 `featurize` applies only the dropout stage to the
encoder output (the single linear layer is exactly the module removed), so
the returned feature vector's width equals the head's input width. -/
theorem C10_depth1_featurize (m : MoleculeModel) (args : Args) (env : Env)
    (x : List Val) (h1 : args.ffn_num_layers = 1) (hwf : Env.WF env)
    (henc : (env.encoder x).length = headInputDim args) :
    (m.create_ffn args).featurize env x = env.drop (env.encoder x) ∧
    ((m.create_ffn args).featurize env x).length = headInputDim args := by
  have hffn : (m.create_ffn args).ffn =
      [Stage.dropout, Stage.linear (headInputDim args) args.output_size] := by
    simp [MoleculeModel.create_ffn, h1]
  have hdl : (m.create_ffn args).ffn.dropLast = [Stage.dropout] := by
    rw [hffn]
    rfl
  constructor
  · simp [MoleculeModel.featurize, hdl, runStages]
  · simp [MoleculeModel.featurize, hdl, runStages, hwf.drop_len, henc]

/-- Witness for C10: depth-1 model with head input width 7, hidden width 5,
output width 3; the feature vector has width 7 (the head input width). -/
theorem C10_witness :
    ((⟨false, false, false, 0, []⟩ : MoleculeModel).create_ffn argsD1).featurize
        envC xM = envC.drop (envC.encoder xM) ∧
    (((⟨false, false, false, 0, []⟩ : MoleculeModel).create_ffn argsD1).featurize
        envC xM).length = headInputDim argsD1 :=
  C10_depth1_featurize ⟨false, false, false, 0, []⟩ argsD1 envC xM rfl envC_wf
    (by decide)

end Chemprop
